import Mathlib

/-!
Verification of the recruitment-agency back office core (placement transition
engine, fee/receivable lifecycle, unified payment ledger) against its
natural-language specification.  The Python source is shallowly embedded:
each SQLAlchemy model becomes a Lean structure, the database session becomes
an explicit `DB` record of tables, and every endpoint handler becomes a pure
function returning `Except Failure _` (an HTTP error response corresponds to
`.error`, and since every `raise` in the handlers happens before `commit`,
an error leaves the committed state unchanged — made explicit by the
`...Tx` wrappers below).
-/

namespace Caps

/-- Primary keys (uuid4 values in the source) are modelled as naturals. -/
abbrev UUID := Nat

/-- Timestamps and dates are modelled as integers (comparison is all the code
uses them for). -/
abbrev Date := Int

/-- JobStatus enum from app/models/job.py. -/
inductive JobStatus
  | OPEN
  | FULFILLED
  | DROPPED
deriving DecidableEq, Repr

/-- CandidateStatus enum (registration track) from app/models/candidate.py. -/
inductive CandidateStatus
  | REGISTERED
  | CAPS
  | JOC
  | FREE
deriving DecidableEq, Repr

/-- CandidateEmploymentStatus enum from app/models/candidate.py. -/
inductive EmploymentStatus
  | EMPLOYED
  | UNEMPLOYED
deriving DecidableEq, Repr

/-- Modelled from the spec: app/models/interview.py is not under src/.  The
spec says the exact intermediate status set is a collaborator concern and only
SCHEDULED (the schema default) and JOINED appear in the core, so the statuses
other than those two are collapsed into one constructor. -/
inductive InterviewStatus
  | SCHEDULED
  | JOINED
  | OTHER
deriving DecidableEq, Repr

/-- Job row, from app/models/job.py (columns the core reads or writes). -/
structure Job where
  id : UUID
  company_id : UUID
  num_vacancies : Int
  status : JobStatus
  is_active : Bool
  title : String := ""
deriving DecidableEq, Repr

/-- Candidate row, from app/models/candidate.py.  `employment_status` is kept
optional: the read endpoints defensively treat a null value (legacy rows) and
default it to UNEMPLOYED before serialization. -/
structure Candidate where
  id : UUID
  full_name : Option String := none
  status : CandidateStatus
  employment_status : Option EmploymentStatus
  is_active : Bool
  created_at : Date := 0
deriving DecidableEq, Repr

/-- Modelled from the spec: app/models/interview.py is not under src/; fields
are taken from the spec's data model and the schema in
app/schemas/interview.py. -/
structure Interview where
  id : UUID
  company_id : UUID
  job_id : UUID
  candidate_id : UUID
  status : InterviewStatus
  is_active : Bool
deriving DecidableEq, Repr

/-- Joined_candidates row, from app/models/job.py. -/
structure JoinedCandidate where
  id : UUID
  job_id : UUID
  candidate_id : UUID
  Date_of_joining : Date
  salary : Int
  remarks : Option String
  is_active : Bool
deriving DecidableEq, Repr

/-- Modelled from the spec: app/models/placement_income.py is not under src/;
fields are taken from the spec's data model and the construction site in
app/api/v1/interviews.py. -/
structure PlacementIncome where
  id : UUID
  interview_id : UUID
  candidate_id : UUID
  job_id : UUID
  total_receivable : Int
  total_received : Int
  balance : Int
  due_date : Date
  remarks : Option String
  is_active : Bool
deriving DecidableEq, Repr

/-- JocStructureFee row, from app/models/candidate.py. -/
structure JocStructureFee where
  id : UUID
  candidate_id : UUID
  total_fee : Int
  balance : Int
  due_date : Option Date
  is_active : Bool
deriving DecidableEq, Repr

/-- CandidatePayment row, from app/models/candidate.py. -/
structure CandidatePayment where
  id : UUID
  candidate_id : UUID
  amount : Int
  payment_date : Date
  created_at : Date := 0
  remarks : Option String := none
  is_active : Bool
deriving DecidableEq, Repr

/-- Modelled from the spec: app/models/company.py is not under src/.  The spec
says all three payment kinds share an active flag, so `CompanyPayment` carries
one even though the ledger projection in the code never reads it. -/
structure CompanyPayment where
  id : UUID
  company_id : UUID
  amount : Int
  payment_date : Date
  created_at : Date := 0
  is_active : Bool
deriving DecidableEq, Repr

/-- Modelled from the spec: app/models/company.py is not under src/. -/
structure Company where
  id : UUID
  name : String
  is_active : Bool
deriving DecidableEq, Repr

/-- Modelled from the spec: app/models/placement_income.py is not under src/;
fields are taken from app/schemas/placement_income_payment.py and the ledger
projection in app/api/v1/payments.py. -/
structure PlacementIncomePayment where
  id : UUID
  placement_income_id : UUID
  amount : Int
  paid_date : Date
  created_at : Date := 0
  remarks : Option String := none
  is_active : Bool
deriving DecidableEq, Repr

/-- The relational store: one list per table. -/
structure DB where
  companies : List Company := []
  jobs : List Job := []
  candidates : List Candidate := []
  interviews : List Interview := []
  joined_candidates : List JoinedCandidate := []
  placement_incomes : List PlacementIncome := []
  joc_structure_fees : List JocStructureFee := []
  candidate_payments : List CandidatePayment := []
  company_payments : List CompanyPayment := []
  placement_income_payments : List PlacementIncomePayment := []
deriving DecidableEq, Repr

/-- Error taxonomy of the core (HTTP 400/422, 404, 409 in the source). -/
inductive Failure
  | validation (detail : String)
  | notFound (detail : String)
  | conflict (detail : String)
deriving DecidableEq, Repr

/-- The three reported failure categories, without the detail message. -/
inductive FailureKind
  | validationK
  | notFoundK
  | conflictK
deriving DecidableEq, Repr

/-- Category of a failure. -/
def Failure.kind : Failure → FailureKind
  | .validation _ => .validationK
  | .notFound _ => .notFoundK
  | .conflict _ => .conflictK

/-- The error of a handler result, if any. -/
def errorOf {α : Type} : Except Failure α → Option Failure
  | .error e => some e
  | .ok _ => none

/-- Update every row matched by `p` (the ORM mutates the object fetched by
primary key; primary keys are unique, so at most one row matches in a
well-formed store). -/
def updateWhere {α : Type} (p : α → Bool) (f : α → α) (l : List α) : List α :=
  l.map fun x => if p x then f x else x

/-- session.get(Interview, id). -/
def DB.findInterview (db : DB) (iid : UUID) : Option Interview :=
  db.interviews.find? fun i => i.id == iid

/-- session.get(Job, id). -/
def DB.findJob (db : DB) (jid : UUID) : Option Job :=
  db.jobs.find? fun j => j.id == jid

/-- session.get(Candidate, id) / select Candidate where id. -/
def DB.findCandidate (db : DB) (cid : UUID) : Option Candidate :=
  db.candidates.find? fun c => c.id == cid

/-- The count query over active joined_candidates rows for a (job, candidate)
pair, from app/api/v1/interviews.py lines 178-190. -/
def DB.activeJoinedCount (db : DB) (jid cid : UUID) : Nat :=
  (db.joined_candidates.filter fun r =>
    r.is_active && (r.job_id == jid) && (r.candidate_id == cid)).length

/-- The first active placement income for an interview
(`scalars().first()` on the filtered select), from
app/api/v1/interviews.py lines 207-214. -/
def DB.findActiveIncome (db : DB) (iid : UUID) : Option PlacementIncome :=
  db.placement_incomes.find? fun p => p.is_active && (p.interview_id == iid)

/-- Number of active placement incomes recorded for an interview. -/
def DB.activeIncomeCount (db : DB) (iid : UUID) : Nat :=
  (db.placement_incomes.filter fun p => p.is_active && (p.interview_id == iid)).length

/-- InterviewStatusUpdate payload, from app/schemas/interview.py. -/
structure InterviewStatusUpdate where
  status : InterviewStatus
  doj : Option Date := none
  salary : Option Int := none
  placement_total_receivable : Option Int := none
  placement_due_date : Option Date := none
  placement_remarks : Option String := none
deriving DecidableEq, Repr

/-- The pydantic field constraints of InterviewStatusUpdate (`gt=0` on salary
and placement_total_receivable): a request failing them is rejected at the
parsing boundary, before the handler runs. -/
def InterviewStatusUpdate.schemaValid (b : InterviewStatusUpdate) : Bool :=
  (match b.salary with
   | none => true
   | some s => decide (0 < s)) &&
  (match b.placement_total_receivable with
   | none => true
   | some r => decide (0 < r))

/-- Response of the status-update endpoint: the fields of InterviewRead the
core's contracts mention (display-only fields such as names and dates are
omitted). -/
structure InterviewStatusResult where
  interview_id : UUID
  status : InterviewStatus
  placement_income_id : Option UUID
deriving DecidableEq, Repr

/-- update_interview_status from app/api/v1/interviews.py (lines 132-247),
the markJoined operation.  `joinedRowId` and `incomeId` stand for the uuid4
defaults of the rows the handler may insert. -/
def updateInterviewStatus (db : DB) (interview_id : UUID)
    (body : InterviewStatusUpdate) (joinedRowId incomeId : UUID) :
    Except Failure (DB × InterviewStatusResult) :=
  if body.schemaValid = false then
    .error (.validation "request body failed schema validation")
  else
  match db.findInterview interview_id with
  | none => .error (.notFound "Interview not found")
  | some interview =>
  if interview.is_active = false then .error (.notFound "Interview not found") else
  match db.findJob interview.job_id with
  | none => .error (.notFound "Job not found")
  | some job =>
  if job.is_active = false then .error (.notFound "Job not found") else
  match db.findCandidate interview.candidate_id with
  | none => .error (.notFound "Candidate not found")
  | some candidate =>
  if candidate.is_active = false then .error (.notFound "Candidate not found") else
  if body.status = InterviewStatus.JOINED then
    match body.doj, body.salary with
    | none, _ => .error (.validation "doj and salary are required when status is JOINED")
    | some _, none => .error (.validation "doj and salary are required when status is JOINED")
    | some doj, some salary =>
    match body.placement_total_receivable with
    | none => .error (.validation "placement_total_receivable is required when status is JOINED")
    | some receivable =>
    if candidate.employment_status = some EmploymentStatus.EMPLOYED then
      .error (.conflict "Candidate is already EMPLOYED and cannot be joined to another job")
    else if job.num_vacancies ≤ 0 then
      .error (.validation "No vacancies available for this job")
    else if 0 < db.activeJoinedCount job.id interview.candidate_id then
      .error (.conflict "Candidate already marked as JOINED for this job")
    else
      let joined_row : JoinedCandidate :=
        { id := joinedRowId
          job_id := job.id
          candidate_id := interview.candidate_id
          Date_of_joining := doj
          salary := salary
          remarks := none
          is_active := true }
      let incomePair : UUID × List PlacementIncome :=
        match db.findActiveIncome interview.id with
        | none =>
            (incomeId,
             db.placement_incomes ++
               [{ id := incomeId
                  interview_id := interview.id
                  candidate_id := interview.candidate_id
                  job_id := interview.job_id
                  total_receivable := receivable
                  total_received := 0
                  balance := receivable
                  due_date := body.placement_due_date.getD doj
                  remarks := body.placement_remarks
                  is_active := true }])
        | some existing => (existing.id, db.placement_incomes)
      let newVacancies : Int := max 0 (job.num_vacancies - 1)
      let db' : DB :=
        { db with
          joined_candidates := db.joined_candidates ++ [joined_row]
          placement_incomes := incomePair.2
          jobs := updateWhere (fun j => j.id == job.id)
            (fun j => { j with
              num_vacancies := newVacancies
              status := if newVacancies = 0 then JobStatus.FULFILLED else j.status })
            db.jobs
          candidates := updateWhere (fun c => c.id == candidate.id)
            (fun c => { c with employment_status := some EmploymentStatus.EMPLOYED })
            db.candidates
          interviews := updateWhere (fun i => i.id == interview.id)
            (fun i => { i with status := body.status }) db.interviews }
      .ok (db', { interview_id := interview.id
                  status := body.status
                  placement_income_id := some incomePair.1 })
  else
    let db' : DB :=
      { db with
        interviews := updateWhere (fun i => i.id == interview.id)
          (fun i => { i with status := body.status }) db.interviews }
    .ok (db', { interview_id := interview.id
                status := body.status
                placement_income_id := none })

/-- The transactional boundary of the endpoint: the handler commits only at
the end of its success path, and every raise happens before the commit, so a
failing call leaves the committed state as it was. -/
def updateInterviewStatusTx (db : DB) (interview_id : UUID)
    (body : InterviewStatusUpdate) (joinedRowId incomeId : UUID) :
    Except Failure InterviewStatusResult × DB :=
  match updateInterviewStatus db interview_id body joinedRowId incomeId with
  | .ok (db', r) => (.ok r, db')
  | .error e => (.error e, db)

/-- The precondition cascade of markJoined in the spec's vocabulary, with the
order amended to match the code: referenced entities are checked first
(not-found), then payload completeness (validation), then the
already-employed guard (conflict), then vacancy capacity (validation), then
the duplicate-join guard (conflict); the first failure wins.  Requests whose
supplied salary or total-receivable is not positive never reach the handler:
they fail schema validation at the parsing boundary. -/
def markJoinedFirstFailure (db : DB) (interview_id : UUID)
    (body : InterviewStatusUpdate) : Option FailureKind :=
  if body.schemaValid = false then some .validationK
  else
  match db.findInterview interview_id with
  | none => some .notFoundK
  | some interview =>
  if interview.is_active = false then some .notFoundK else
  match db.findJob interview.job_id with
  | none => some .notFoundK
  | some job =>
  if job.is_active = false then some .notFoundK else
  match db.findCandidate interview.candidate_id with
  | none => some .notFoundK
  | some candidate =>
  if candidate.is_active = false then some .notFoundK else
  if body.doj = none ∨ body.salary = none then some .validationK else
  if body.placement_total_receivable = none then some .validationK else
  if candidate.employment_status = some EmploymentStatus.EMPLOYED then some .conflictK else
  if job.num_vacancies ≤ 0 then some .validationK else
  if 0 < db.activeJoinedCount job.id interview.candidate_id then some .conflictK
  else none

/-- Job used by the concrete happy-path scenario. -/
def w1job : Job :=
  { id := 2, company_id := 3, num_vacancies := 1, status := JobStatus.OPEN, is_active := true }

/-- Candidate used by the concrete happy-path scenario. -/
def w1cand : Candidate :=
  { id := 4, status := CandidateStatus.REGISTERED
    employment_status := some EmploymentStatus.UNEMPLOYED, is_active := true }

/-- Interview used by the concrete happy-path scenario. -/
def w1iv : Interview :=
  { id := 1, company_id := 3, job_id := 2, candidate_id := 4
    status := InterviewStatus.SCHEDULED, is_active := true }

/-- Store of the concrete happy-path scenario. -/
def w1db : DB := { jobs := [w1job], candidates := [w1cand], interviews := [w1iv] }

/-- Valid markJoined payload for the concrete happy-path scenario. -/
def w1body : InterviewStatusUpdate :=
  { status := InterviewStatus.JOINED, doj := some 10, salary := some 1000
    placement_total_receivable := some 500 }

/-- Interview of the C2 counterexample store (its job_id references no job). -/
def c2interview : Interview :=
  { id := 1, company_id := 3, job_id := 2, candidate_id := 4
    status := InterviewStatus.SCHEDULED, is_active := true }

/-- C2 counterexample store: an interview whose job does not exist. -/
def c2db : DB := { interviews := [c2interview] }

/-- Payload missing the salary field (and otherwise complete). -/
def c2body : InterviewStatusUpdate :=
  { status := InterviewStatus.JOINED, doj := some 10, salary := none
    placement_total_receivable := some 500 }

/-- Result of the concrete first markJoined call of the repeat scenario. -/
def w3res : DB × InterviewStatusResult :=
  match updateInterviewStatus w1db 1 w1body 50 60 with
  | .ok p => p
  | .error _ => ({}, { interview_id := 0, status := InterviewStatus.OTHER
                       placement_income_id := none })

/-- A store-level index declaration: name, key columns, whether it is a
unique index, and whether it is filtered (partial) to active rows. -/
structure IndexDecl where
  name : String
  columns : List String
  unique : Bool
  filtered_to_active : Bool
deriving DecidableEq, Repr

/-- The index declarations of the joined_candidates table, transcribed from
Joined_candidates.__table_args__ in app/models/job.py: two plain single-column
Index declarations and nothing else. -/
def joinedCandidatesTableIndexes : List IndexDecl :=
  [ { name := "ix_joined_candidates_job_id"
      columns := ["job_id"]
      unique := false
      filtered_to_active := false },
    { name := "ix_joined_candidates_candidate_id"
      columns := ["candidate_id"]
      unique := false
      filtered_to_active := false } ]

/-- Pre-existing active receivable used by the C5 reuse scenario (its
interview_id points at the scenario interview). -/
def w5income : PlacementIncome :=
  { id := 77, interview_id := 1, candidate_id := 4, job_id := 2
    total_receivable := 900, total_received := 100, balance := 800
    due_date := 20, remarks := none, is_active := true }

/-- C5 reuse-scenario store: the happy-path store plus an existing active
receivable for the interview. -/
def w5db : DB := { w1db with placement_incomes := [w5income] }

/-- A row of the unified payment ledger (the common projected shape of the
three payment sources; PaymentLedgerItem in app/schemas/payment_ledger.py). -/
structure LedgerRow where
  id : UUID
  source : String
  payment_date : Date
  amount : Int
  created_at : Date
  is_active : Bool
  placement_income_id : Option UUID
  company_id : Option UUID
  company_name : Option String
  candidate_id : Option UUID
  candidate_name : Option String
  job_id : Option UUID
  job_title : Option String
  interview_id : Option UUID
  remarks : Option String
deriving DecidableEq, Repr

/-- Lookup of a company by primary key. -/
def DB.findCompany (db : DB) (cid : UUID) : Option Company :=
  db.companies.find? fun c => c.id == cid

/-- Lookup of a placement income row by primary key. -/
def DB.findIncome (db : DB) (pid : UUID) : Option PlacementIncome :=
  db.placement_incomes.find? fun p => p.id == pid

/-- company_stmt of list_payment_ledger (payments.py lines 45-65): company
payments inner-joined to their company; the projected is_active column is the
literal True of the code, not the stored flag. -/
def companyProjection (db : DB) : List LedgerRow :=
  db.company_payments.filterMap fun p =>
    (db.findCompany p.company_id).map fun comp =>
      { id := p.id
        source := "COMPANY_PAYMENT"
        payment_date := p.payment_date
        amount := p.amount
        created_at := p.created_at
        is_active := true
        placement_income_id := none
        company_id := some p.company_id
        company_name := some comp.name
        candidate_id := none
        candidate_name := none
        job_id := none
        job_title := none
        interview_id := none
        remarks := none }

/-- candidate_stmt of list_payment_ledger (payments.py lines 67-87):
candidate payments inner-joined to their candidate. -/
def candidateProjection (db : DB) : List LedgerRow :=
  db.candidate_payments.filterMap fun p =>
    (db.findCandidate p.candidate_id).map fun cand =>
      { id := p.id
        source := "CANDIDATE_PAYMENT"
        payment_date := p.payment_date
        amount := p.amount
        created_at := p.created_at
        is_active := p.is_active
        placement_income_id := none
        company_id := none
        company_name := none
        candidate_id := some p.candidate_id
        candidate_name := cand.full_name
        job_id := none
        job_title := none
        interview_id := none
        remarks := p.remarks }

/-- placement_stmt of list_payment_ledger (payments.py lines 89-112):
placement installments inner-joined through PlacementIncome, Job, Company and
Candidate. -/
def placementProjection (db : DB) : List LedgerRow :=
  db.placement_income_payments.filterMap fun p =>
    (db.findIncome p.placement_income_id).bind fun pi =>
    (db.findJob pi.job_id).bind fun job =>
    (db.findCompany job.company_id).bind fun comp =>
    (db.findCandidate pi.candidate_id).map fun cand =>
      { id := p.id
        source := "PLACEMENT_INCOME"
        payment_date := p.paid_date
        amount := p.amount
        created_at := p.created_at
        is_active := p.is_active
        placement_income_id := some p.placement_income_id
        company_id := some job.company_id
        company_name := some comp.name
        candidate_id := some pi.candidate_id
        candidate_name := cand.full_name
        job_id := some pi.job_id
        job_title := some job.title
        interview_id := some pi.interview_id
        remarks := p.remarks }

/-- The union_all of the three projections, duplicates preserved. -/
def ledgerRows (db : DB) : List LedgerRow :=
  companyProjection db ++ candidateProjection db ++ placementProjection db

/-- Query filters of the ledger endpoint (its FastAPI Query parameters). -/
structure LedgerFilters where
  source : Option (List String) := none
  start_date : Option Date := none
  end_date : Option Date := none
  company_id : Option UUID := none
  candidate_id : Option UUID := none
  job_id : Option UUID := none
  min_amount : Option Int := none
  max_amount : Option Int := none
  include_inactive : Bool := false
deriving DecidableEq, Repr

/-- The conjunction of the optional filters applied to the unioned relation
(payments.py lines 116-134): equality against a null projected column is
false (SQL null semantics), date and amount ranges are inclusive, an absent
or empty source list applies no source filter (Python truthiness of the
`if source:` guard), and unless include_inactive is set the projected
is_active column must be true. -/
def LedgerFilters.matchesRow (f : LedgerFilters) (row : LedgerRow) : Bool :=
  (match f.source with
   | none => true
   | some srcs => if srcs.isEmpty then true else srcs.contains row.source) &&
  (match f.start_date with
   | none => true
   | some dt => decide (dt ≤ row.payment_date)) &&
  (match f.end_date with
   | none => true
   | some dt => decide (row.payment_date ≤ dt)) &&
  (match f.company_id with
   | none => true
   | some cid => row.company_id == some cid) &&
  (match f.candidate_id with
   | none => true
   | some cid => row.candidate_id == some cid) &&
  (match f.job_id with
   | none => true
   | some jid => row.job_id == some jid) &&
  (match f.min_amount with
   | none => true
   | some m => decide (m ≤ row.amount)) &&
  (match f.max_amount with
   | none => true
   | some m => decide (row.amount ≤ m)) &&
  (f.include_inactive || row.is_active)

/-- ORDER BY payment_date DESC, created_at DESC: row `a` may be listed no
later than row `b`. -/
def ledgerBefore (a b : LedgerRow) : Prop :=
  b.payment_date < a.payment_date ∨
    (a.payment_date = b.payment_date ∧ b.created_at ≤ a.created_at)

instance : DecidableRel ledgerBefore := fun a b => by
  unfold ledgerBefore
  exact inferInstance

instance : IsTotal LedgerRow ledgerBefore :=
  ⟨fun a b => by
    unfold ledgerBefore
    rcases lt_trichotomy a.payment_date b.payment_date with h | h | h
    · exact Or.inr (Or.inl h)
    · rcases le_total b.created_at a.created_at with hc | hc
      · exact Or.inl (Or.inr ⟨h, hc⟩)
      · exact Or.inr (Or.inr ⟨h.symm, hc⟩)
    · exact Or.inl (Or.inl h)⟩

instance : IsTrans LedgerRow ledgerBefore :=
  ⟨fun a b c hab hbc => by
    unfold ledgerBefore at *
    rcases hab with h1 | ⟨h1, h1'⟩ <;> rcases hbc with h2 | ⟨h2, h2'⟩
    · exact Or.inl (h2.trans h1)
    · exact Or.inl (by rw [← h2]; exact h1)
    · exact Or.inl (by rw [h1]; exact h2)
    · exact Or.inr ⟨h1.trans h2, h2'.trans h1'⟩⟩

/-- Response envelope of the ledger endpoint
(PaginatedResponse of PaymentLedgerItem). -/
structure LedgerPage where
  items : List LedgerRow
  total : Nat
  page : Nat
  limit : Nat
deriving DecidableEq, Repr

/-- list_payment_ledger from app/api/v1/payments.py (lines 26-154): union the
three projections, filter, sort by payment_date descending with created_at
descending as tie-break, paginate with offset (page-1)*limit and size limit,
and return the count of all filtered rows as total, computed independently of
page and limit. -/
def listPaymentLedger (db : DB) (f : LedgerFilters) (page limit : Nat) : LedgerPage :=
  let rows := (ledgerRows db).filter f.matchesRow
  let sorted := List.insertionSort ledgerBefore rows
  { items := (sorted.drop ((page - 1) * limit)).take limit
    total := rows.length
    page := page
    limit := limit }

/-- Concrete three-payment store of the ledger merge scenario: one company
payment (500, date 1), one candidate payment (300, date 2), one placement
installment (700, date 3), with all join targets present. -/
def db6 : DB :=
  { companies := [{ id := 1, name := "Acme", is_active := true }]
    jobs := [{ id := 4, company_id := 1, num_vacancies := 1
               status := JobStatus.OPEN, is_active := true, title := "Welder" }]
    candidates := [{ id := 2, full_name := some "Bob"
                     status := CandidateStatus.FREE
                     employment_status := some EmploymentStatus.UNEMPLOYED
                     is_active := true }]
    placement_incomes := [{ id := 3, interview_id := 9, candidate_id := 2, job_id := 4
                            total_receivable := 1000, total_received := 700, balance := 300
                            due_date := 30, remarks := none, is_active := true }]
    company_payments := [{ id := 10, company_id := 1, amount := 500
                           payment_date := 1, created_at := 1, is_active := true }]
    candidate_payments := [{ id := 11, candidate_id := 2, amount := 300
                             payment_date := 2, created_at := 2, remarks := none
                             is_active := true }]
    placement_income_payments := [{ id := 12, placement_income_id := 3, amount := 700
                                    paid_date := 3, created_at := 3, remarks := none
                                    is_active := true }] }

/-- C7 counterexample store: a single company payment whose stored active
flag is false, with its company present. -/
def c7db : DB :=
  { companies := [{ id := 1, name := "Acme", is_active := true }]
    company_payments := [{ id := 10, company_id := 1, amount := 100
                           payment_date := 5, created_at := 5, is_active := false }] }

/-- The candidate-payment row of the concrete three-payment store as the
ledger projects it. -/
def w7row : LedgerRow :=
  { id := 11, source := "CANDIDATE_PAYMENT", payment_date := 2, amount := 300
    created_at := 2, is_active := true, placement_income_id := none
    company_id := none, company_name := none, candidate_id := some 2
    candidate_name := some "Bob", job_id := none, job_title := none
    interview_id := none, remarks := none }

/-- Fee-structure payload of candidate create/update requests.  Modelled from
the spec and the construction sites in app/api/v1/candidates.py
(app/schemas/candidate.py is not under src/). -/
structure FeeStructurePayload where
  total_fee : Int
  due_date : Option Date := none
deriving DecidableEq, Repr

/-- Payment payload of candidate create/update requests.  Modelled from the
spec and app/api/v1/candidates.py (app/schemas/candidate.py is not under
src/). -/
structure PaymentPayload where
  amount : Int
  payment_date : Date
  remarks : Option String := none
deriving DecidableEq, Repr

/-- CandidateCreate request body: the registration track plus the optional
fee-structure and initial-payment payloads.  Modelled from the spec and
app/api/v1/candidates.py (app/schemas/candidate.py is not under src/);
profile fields are orthogonal to the fee/payment rules and omitted. -/
structure CandidateCreate where
  full_name : Option String := none
  status : CandidateStatus
  fee_structure : Option FeeStructurePayload := none
  initial_payment : Option PaymentPayload := none
deriving DecidableEq, Repr

/-- CandidateUpdate request body (all fields optional, exclude_unset
semantics).  Modelled from the spec and app/api/v1/candidates.py
(app/schemas/candidate.py is not under src/); profile fields are orthogonal
to the fee/payment rules and omitted. -/
structure CandidateUpdate where
  status : Option CandidateStatus := none
  fee_structure : Option FeeStructurePayload := none
  initial_payment : Option PaymentPayload := none
deriving DecidableEq, Repr

/-- create_candidate from app/api/v1/candidates.py (lines 115-176): reject a
JOC creation without a fee structure, reject a REGISTERED/JOC creation
without an initial payment, otherwise insert the candidate (with the column
default UNEMPLOYED), the JOC fee row (balance = total_fee) and the initial
payment row.  `newCandId`, `newFeeId`, `newPayId` stand for the uuid4
defaults, `now` for the creation timestamp; the email/mobile unique-conflict
path concerns fields outside the modelled ones. -/
def createCandidate (db : DB) (body : CandidateCreate)
    (newCandId newFeeId newPayId : UUID) (now : Date) : Except Failure DB :=
  let fee_payload := if body.status = CandidateStatus.JOC then body.fee_structure else none
  if body.status = CandidateStatus.JOC ∧ fee_payload = none then
    .error (.validation "fee_structure is required")
  else
  let pay_payload :=
    if body.status = CandidateStatus.REGISTERED ∨ body.status = CandidateStatus.JOC then
      body.initial_payment
    else none
  if (body.status = CandidateStatus.REGISTERED ∨ body.status = CandidateStatus.JOC) ∧
      pay_payload = none then
    .error (.validation "initial_payment is required")
  else
    let candidate : Candidate :=
      { id := newCandId, full_name := body.full_name, status := body.status
        employment_status := some EmploymentStatus.UNEMPLOYED, is_active := true
        created_at := now }
    let db1 := { db with candidates := db.candidates ++ [candidate] }
    let db2 := match fee_payload with
      | none => db1
      | some fp =>
        { db1 with joc_structure_fees := db1.joc_structure_fees ++
            [{ id := newFeeId, candidate_id := newCandId, total_fee := fp.total_fee
               balance := fp.total_fee, due_date := fp.due_date, is_active := true }] }
    let db3 := match pay_payload with
      | none => db2
      | some pp =>
        { db2 with candidate_payments := db2.candidate_payments ++
            [{ id := newPayId, candidate_id := newCandId, amount := pp.amount
               payment_date := pp.payment_date, created_at := now
               remarks := pp.remarks, is_active := true }] }
    .ok db3

/-- Transactional boundary of create_candidate: both validation raises happen
before anything is added to the session, so a failing call persists
nothing. -/
def createCandidateTx (db : DB) (body : CandidateCreate)
    (newCandId newFeeId newPayId : UUID) (now : Date) : Except Failure DB × DB :=
  match createCandidate db body newCandId newFeeId newPayId now with
  | .ok db' => (.ok db', db')
  | .error e => (.error e, db)

/-- The candidate's fee-structure row: the 1:1 ORM relationship, whose join
condition is the candidate id alone (no active-flag filter). -/
def DB.findFeeRow (db : DB) (cid : UUID) : Option JocStructureFee :=
  db.joc_structure_fees.find? fun r => r.candidate_id == cid

/-- The registration track in force after applying the update's status field
(`effective_status` in the handler). -/
def effectiveStatus (candidate : Candidate) (body : CandidateUpdate) : CandidateStatus :=
  (match body.status with
   | none => candidate
   | some st => { candidate with status := st }).status

/-- update_candidate from app/api/v1/candidates.py (lines 212-296): look up
the candidate, apply the supplied status, enforce the track rules (CAPS/FREE
forbid fee and payment payloads; REGISTERED forbids a fee payload and may
append a payment; JOC creates the fee row if absent or updates only
total_fee/due_date in place if present, and may append a payment).  Profile
fields other than the registration track are orthogonal to the modelled rules
and omitted; `newFeeId`/`newPayId` stand for the uuid4 defaults, `now` for
the insertion timestamp. -/
def updateCandidate (db : DB) (cid : UUID) (body : CandidateUpdate)
    (newFeeId newPayId : UUID) (now : Date) : Except Failure DB :=
  match db.findCandidate cid with
  | none => .error (.notFound "Candidate not found")
  | some candidate =>
  if candidate.is_active = false then .error (.notFound "Candidate not found") else
  if (effectiveStatus candidate body = CandidateStatus.CAPS ∨
      effectiveStatus candidate body = CandidateStatus.FREE) ∧
      (body.fee_structure ≠ none ∨ body.initial_payment ≠ none) then
    .error (.validation "fee_structure and initial_payment are not allowed for CAPS/FREE")
  else if effectiveStatus candidate body = CandidateStatus.REGISTERED ∧
      body.fee_structure ≠ none then
    .error (.validation "fee_structure is not allowed for REGISTERED")
  else
    let updCand := updateWhere (fun c => c.id == candidate.id)
      (fun c => match body.status with
        | none => c
        | some st => { c with status := st }) db.candidates
    let dbA := { db with candidates := updCand }
    let dbB :=
      if effectiveStatus candidate body = CandidateStatus.REGISTERED then
        match body.initial_payment with
        | none => dbA
        | some pp =>
          { dbA with candidate_payments := dbA.candidate_payments ++
              [{ id := newPayId, candidate_id := candidate.id, amount := pp.amount
                 payment_date := pp.payment_date, created_at := now
                 remarks := pp.remarks, is_active := true }] }
      else dbA
    let dbC :=
      if effectiveStatus candidate body = CandidateStatus.JOC then
        let dbF := match body.fee_structure with
          | none => dbB
          | some fp =>
            match db.findFeeRow candidate.id with
            | none =>
              { dbB with joc_structure_fees := dbB.joc_structure_fees ++
                  [{ id := newFeeId, candidate_id := candidate.id
                     total_fee := fp.total_fee, balance := fp.total_fee
                     due_date := fp.due_date, is_active := true }] }
            | some _ =>
              let updFee := updateWhere (fun r => r.candidate_id == candidate.id)
                (fun r => { r with total_fee := fp.total_fee, due_date := fp.due_date })
                dbB.joc_structure_fees
              { dbB with joc_structure_fees := updFee }
        match body.initial_payment with
        | none => dbF
        | some pp =>
          { dbF with candidate_payments := dbF.candidate_payments ++
              [{ id := newPayId, candidate_id := candidate.id, amount := pp.amount
                 payment_date := pp.payment_date, created_at := now
                 remarks := pp.remarks, is_active := true }] }
      else dbB
    .ok dbC

/-- CandidateRead response fields the claims mention.  Modelled from the spec
(app/schemas/candidate.py is not under src/); display fields and interview
counts are omitted. -/
structure CandidateRead where
  id : UUID
  status : CandidateStatus
  employment_status : Option EmploymentStatus
  is_active : Bool
deriving DecidableEq, Repr

/-- Serialization of a candidate row, including the null-employment-status
defaulting performed by list_candidates (candidates.py lines 100-106) and
get_candidate (lines 205-208) before model_validate. -/
def candidateToRead (c : Candidate) : CandidateRead :=
  let c2 := if c.employment_status = none
    then { c with employment_status := some EmploymentStatus.UNEMPLOYED } else c
  { id := c2.id, status := c2.status, employment_status := c2.employment_status
    is_active := c2.is_active }

/-- Sort key of list_candidates: created_at descending. -/
def candidateCreatedDesc (a b : Candidate) : Prop := b.created_at ≤ a.created_at

instance : DecidableRel candidateCreatedDesc := fun a b => by
  unfold candidateCreatedDesc
  exact inferInstance

instance : IsTotal Candidate candidateCreatedDesc :=
  ⟨fun a b => le_total b.created_at a.created_at⟩

instance : IsTrans Candidate candidateCreatedDesc :=
  ⟨fun _ _ _ h1 h2 => le_trans h2 h1⟩

/-- Paginated list response of candidates. -/
structure CandidatePage where
  items : List CandidateRead
  total : Nat
  page : Nat
  limit : Nat
deriving DecidableEq, Repr

/-- list_candidates from app/api/v1/candidates.py (lines 29-112), restricted
to the is_active filter (the profile search filters concern fields outside
the modelled ones): filter, sort by created_at descending, paginate,
serialize with the employment-status defaulting, and count the filtered
rows. -/
def listCandidates (db : DB) (page limit : Nat) (is_active : Option Bool) : CandidatePage :=
  let matching := db.candidates.filter fun c =>
    match is_active with
    | none => true
    | some b => c.is_active == b
  let sorted := List.insertionSort candidateCreatedDesc matching
  { items := ((sorted.drop ((page - 1) * limit)).take limit).map candidateToRead
    total := matching.length
    page := page
    limit := limit }

/-- get_candidate from app/api/v1/candidates.py (lines 179-209): look up the
candidate, 404 when missing or inactive, then serialize with the
employment-status defaulting. -/
def getCandidate (db : DB) (cid : UUID) : Except Failure CandidateRead :=
  match db.findCandidate cid with
  | none => .error (.notFound "Candidate not found")
  | some c =>
  if c.is_active = false then .error (.notFound "Candidate not found")
  else .ok (candidateToRead c)

/-- Candidate of the concrete JOC update scenario. -/
def w8cand : Candidate :=
  { id := 6, status := CandidateStatus.JOC
    employment_status := some EmploymentStatus.UNEMPLOYED, is_active := true }

/-- Existing fee-structure row of the concrete JOC update scenario: balance
400 differs from total_fee 1000 to make the no-recompute visible. -/
def w8fee : JocStructureFee :=
  { id := 7, candidate_id := 6, total_fee := 1000, balance := 400
    due_date := some 15, is_active := true }

/-- Store of the concrete JOC update scenario. -/
def w8db : DB := { candidates := [w8cand], joc_structure_fees := [w8fee] }

/-- JOC update request of the concrete scenario: a new fee structure payload
and a payment. -/
def w8body : CandidateUpdate :=
  { fee_structure := some { total_fee := 1200, due_date := some 25 }
    initial_payment := some { amount := 100, payment_date := 18 } }

/-- JOC creation request of the concrete C9 scenario. -/
def w9body : CandidateCreate :=
  { status := CandidateStatus.JOC
    fee_structure := some { total_fee := 600 }
    initial_payment := some { amount := 50, payment_date := 4 } }

/-- Store produced by the successful concrete JOC creation. -/
def w9dbres : DB :=
  match createCandidate ({} : DB) w9body 1 2 3 0 with
  | .ok d => d
  | .error _ => {}

/-- Candidate with a null stored employment status (legacy row). -/
def w10cand : Candidate :=
  { id := 5, status := CandidateStatus.FREE, employment_status := none
    is_active := true }

/-- Store holding the null-employment candidate. -/
def w10db : DB := { candidates := [w10cand] }

theorem find?_updateWhere {α : Type} (p : α → Bool) (f : α → α) (l : List α) (j : α)
    (h : l.find? p = some j) (hf : p (f j) = true) :
    (updateWhere p f l).find? p = some (f j) := by
  induction l with
  | nil => simp at h
  | cons a l ih =>
    by_cases hpa : p a = true
    · rw [List.find?_cons_of_pos _ hpa] at h
      cases h
      simp [updateWhere, hpa, List.find?_cons_of_pos _ hf]
    · rw [List.find?_cons_of_neg _ hpa] at h
      have ih' : (updateWhere p f l).find? p = some (f j) := ih h
      show (List.map (fun x => if p x then f x else x) (a :: l)).find? p = some (f j)
      rw [List.map_cons, if_neg hpa, List.find?_cons_of_neg _ hpa]
      exact ih'

theorem filter_length_append_one {α : Type} (p : α → Bool) (l : List α) (a : α)
    (hl : (l.filter p).length = 0) (ha : p a = true) :
    ((l ++ [a]).filter p).length = 1 := by
  rw [List.filter_append]
  simp [List.filter, ha, List.length_eq_zero.mp hl]

theorem find?_append_right {α : Type} (p : α → Bool) (l : List α) (a : α)
    (hl : l.find? p = none) (ha : p a = true) :
    (l ++ [a]).find? p = some a := by
  rw [List.find?_append, hl]
  simp [List.find?_cons_of_pos _ ha]

/-- C1: for every interview whose job has num_vacancies = 1 and whose
candidate is active and UNEMPLOYED (fresh scenario: no active joining record
for the pair and no active receivable for the interview yet), a markJoined
call with a valid payload succeeds, and afterwards the interview is JOINED,
the job has num_vacancies = 0 and status FULFILLED, the candidate is
EMPLOYED, exactly one active joining record exists for the pair, one active
placement-income receivable exists with balance = total_receivable, and the
response carries the receivable's id. -/
theorem C1_markJoined_happy_path
    (db : DB) (iid jrid incid : UUID) (body : InterviewStatusUpdate)
    (interview : Interview) (job : Job) (candidate : Candidate)
    (d : Date) (sal recv : Int)
    (hI : db.findInterview iid = some interview)
    (hIa : interview.is_active = true)
    (hJ : db.findJob interview.job_id = some job)
    (hJa : job.is_active = true)
    (hC : db.findCandidate interview.candidate_id = some candidate)
    (hCa : candidate.is_active = true)
    (hCu : candidate.employment_status = some EmploymentStatus.UNEMPLOYED)
    (hv : job.num_vacancies = 1)
    (hs : body.status = InterviewStatus.JOINED)
    (hdoj : body.doj = some d)
    (hsal : body.salary = some sal) (hsalpos : 0 < sal)
    (hrec : body.placement_total_receivable = some recv) (hrecpos : 0 < recv)
    (hnj : db.activeJoinedCount job.id interview.candidate_id = 0)
    (hni : db.findActiveIncome interview.id = none) :
    ∃ db', updateInterviewStatus db iid body jrid incid =
      .ok (db', { interview_id := interview.id
                  status := InterviewStatus.JOINED
                  placement_income_id := some incid }) ∧
      db'.findInterview iid = some { interview with status := InterviewStatus.JOINED } ∧
      db'.findJob interview.job_id =
        some { job with num_vacancies := 0, status := JobStatus.FULFILLED } ∧
      db'.findCandidate interview.candidate_id =
        some { candidate with employment_status := some EmploymentStatus.EMPLOYED } ∧
      db'.activeJoinedCount job.id interview.candidate_id = 1 ∧
      db'.activeIncomeCount interview.id = 1 ∧
      db'.findActiveIncome interview.id = some
        { id := incid
          interview_id := interview.id
          candidate_id := interview.candidate_id
          job_id := interview.job_id
          total_receivable := recv
          total_received := 0
          balance := recv
          due_date := body.placement_due_date.getD d
          remarks := body.placement_remarks
          is_active := true } := by
  have hsv : body.schemaValid = true := by
    unfold InterviewStatusUpdate.schemaValid
    rw [hsal, hrec]
    simp [hsalpos, hrecpos]
  have hI' : db.interviews.find? (fun i => i.id == iid) = some interview := hI
  have hJ' : db.jobs.find? (fun j => j.id == interview.job_id) = some job := hJ
  have hC' : db.candidates.find? (fun c => c.id == interview.candidate_id) = some candidate := hC
  have hIid : interview.id = iid := by
    have := List.find?_some hI'
    simpa using this
  have hJobId : job.id = interview.job_id := by
    have := List.find?_some hJ'
    simpa using this
  have hCandId : candidate.id = interview.candidate_id := by
    have := List.find?_some hC'
    simpa using this
  subst hIid
  unfold updateInterviewStatus
  simp only [hsv, hI, hIa, hJ, hJa, hC, hCa, hs, hdoj, hsal, hrec, hCu, hv, hnj, hni]
  norm_num
  refine ⟨_, rfl, ?_, ?_, ?_, ?_, ?_, ?_⟩
  · -- interview row updated to JOINED
    show (DB.findInterview _ interview.id) = _
    unfold DB.findInterview
    have hres := find?_updateWhere (fun i => i.id == interview.id)
      (fun i => { i with status := InterviewStatus.JOINED }) db.interviews interview hI'
      (by simp)
    exact hres.trans (by simp [hIa])
  · -- job row: vacancies 0, FULFILLED
    show (DB.findJob _ interview.job_id) = _
    unfold DB.findJob
    simp only [← hJobId]
    have hres := find?_updateWhere (fun j => j.id == job.id)
      (fun j => { j with num_vacancies := 0, status := JobStatus.FULFILLED }) db.jobs job
      (by rw [← hJobId] at hJ'; exact hJ') (by simp)
    exact hres.trans (by simp [hJa])
  · -- candidate row: EMPLOYED
    show (DB.findCandidate _ interview.candidate_id) = _
    unfold DB.findCandidate
    simp only [← hCandId]
    have hres := find?_updateWhere (fun c => c.id == candidate.id)
      (fun c => { c with employment_status := some EmploymentStatus.EMPLOYED })
      db.candidates candidate
      (by rw [← hCandId] at hC'; exact hC') (by simp)
    exact hres.trans (by simp [hCa])
  · -- exactly one active joining record for the pair
    show (DB.activeJoinedCount _ job.id interview.candidate_id) = 1
    unfold DB.activeJoinedCount
    exact filter_length_append_one _ _ _ hnj (by simp)
  · -- exactly one active receivable for the interview
    show (DB.activeIncomeCount _ interview.id) = 1
    unfold DB.activeIncomeCount
    refine filter_length_append_one _ _ _ ?_ (by simp)
    have : db.placement_incomes.filter
        (fun p => p.is_active && (p.interview_id == interview.id)) = [] :=
      List.filter_eq_nil_iff.mpr (by
        intro x hx
        have := List.find?_eq_none.mp hni x hx
        simpa using this)
    simp [DB.activeIncomeCount, this]
  · -- the receivable row itself
    show (DB.findActiveIncome _ interview.id) = _
    unfold DB.findActiveIncome
    exact find?_append_right _ _ _ hni (by simp)

/-- Witness for C1: the happy-path theorem instantiated on a concrete store. -/
theorem C1_witness :
    ∃ db', updateInterviewStatus w1db 1 w1body 50 60 =
      .ok (db', { interview_id := 1
                  status := InterviewStatus.JOINED
                  placement_income_id := some 60 }) ∧
      db'.findInterview 1 = some { w1iv with status := InterviewStatus.JOINED } ∧
      db'.findJob 2 = some { w1job with num_vacancies := 0, status := JobStatus.FULFILLED } ∧
      db'.findCandidate 4 =
        some { w1cand with employment_status := some EmploymentStatus.EMPLOYED } ∧
      db'.activeJoinedCount 2 4 = 1 ∧
      db'.activeIncomeCount 1 = 1 ∧
      db'.findActiveIncome 1 = some
        { id := 60
          interview_id := 1
          candidate_id := 4
          job_id := 2
          total_receivable := 500
          total_received := 0
          balance := 500
          due_date := 10
          remarks := none
          is_active := true } :=
  C1_markJoined_happy_path w1db 1 50 60 w1body w1iv w1job w1cand 10 1000 500
    rfl rfl rfl rfl rfl rfl rfl rfl rfl rfl rfl (by decide) rfl (by decide) rfl rfl

/-- C2 counterexample: a markJoined call whose payload is missing salary,
against an interview whose job does not exist, reports the not-found failure,
not the validation failure the claim predicts: the handler checks job and
candidate existence before payload completeness. -/
theorem C2_counterexample :
    c2body.salary = none ∧
    c2db.findJob c2interview.job_id = none ∧
    errorOf (updateInterviewStatus c2db 1 c2body 50 60) =
      some (Failure.notFound "Job not found") ∧
    (Failure.notFound "Job not found").kind ≠ FailureKind.validationK := by
  refine ⟨rfl, rfl, rfl, by decide⟩

/-- C2 amended: for every markJoined call, the failure category reported is
exactly the first failure of the cascade checked in this order: schema
validity of the payload (positive supplied salary/total-receivable), then
existence and activity of the referenced interview, job and candidate
(not-found), then payload completeness: date-of-joining, salary,
total-receivable (validation), then the already-employed guard (conflict),
then vacancy capacity (validation), then the duplicate-join guard (conflict);
first failure wins, and the call succeeds exactly when no check fails. -/
theorem C2_amended_precondition_order (db : DB) (iid a b : UUID)
    (body : InterviewStatusUpdate)
    (hs : body.status = InterviewStatus.JOINED) :
    Option.map Failure.kind (errorOf (updateInterviewStatus db iid body a b)) =
      markJoinedFirstFailure db iid body := by
  unfold updateInterviewStatus markJoinedFirstFailure
  by_cases h0 : body.schemaValid = false
  · simp [h0, errorOf, Failure.kind]
  · rw [if_neg h0, if_neg h0]
    cases hI : db.findInterview iid with
    | none => simp [errorOf, Failure.kind]
    | some interview =>
    dsimp only
    by_cases hIa : interview.is_active = false
    · simp [hIa, errorOf, Failure.kind]
    · rw [if_neg hIa, if_neg hIa]
      cases hJ : db.findJob interview.job_id with
      | none => simp [errorOf, Failure.kind]
      | some job =>
      dsimp only
      by_cases hJa : job.is_active = false
      · simp [hJa, errorOf, Failure.kind]
      · rw [if_neg hJa, if_neg hJa]
        cases hC : db.findCandidate interview.candidate_id with
        | none => simp [errorOf, Failure.kind]
        | some candidate =>
        dsimp only
        by_cases hCa : candidate.is_active = false
        · simp [hCa, errorOf, Failure.kind]
        · rw [if_neg hCa, if_neg hCa, hs, if_pos rfl]
          cases hdoj : body.doj with
          | none => simp [errorOf, Failure.kind]
          | some doj =>
          cases hsal : body.salary with
          | none => simp [errorOf, Failure.kind]
          | some sal =>
          dsimp only
          cases hrec : body.placement_total_receivable with
          | none => simp [errorOf, Failure.kind]
          | some recv =>
          dsimp only
          simp only [reduceCtorEq, or_self, if_false, or_false, false_or]
          by_cases hemp : candidate.employment_status = some EmploymentStatus.EMPLOYED
          · simp [hemp, errorOf, Failure.kind]
          · rw [if_neg hemp]
            by_cases hvac : job.num_vacancies ≤ 0
            · simp [hemp, hvac, errorOf, Failure.kind]
            · rw [if_neg hvac]
              by_cases hjc : 0 < db.activeJoinedCount job.id interview.candidate_id
              · simp [hemp, hvac, hjc, errorOf, Failure.kind]
              · rw [if_neg hjc]
                cases db.findActiveIncome interview.id with
                | none => simp [hemp, hvac, hjc, errorOf]
                | some existing => simp [hemp, hvac, hjc, errorOf]

/-- Witness for C2's amended theorem at a concrete input. -/
theorem C2_amended_witness :
    Option.map Failure.kind (errorOf (updateInterviewStatus c2db 1 c2body 50 60)) =
      markJoinedFirstFailure c2db 1 c2body :=
  C2_amended_precondition_order c2db 1 50 60 c2body rfl

/-- C3: a markJoined call that fails leaves the committed store unchanged (the
transaction wrapper returns the input store on every failure); in particular,
after a successful markJoined, the exact repeat call fails with a
ConflictFailure (the just-employed candidate trips the already-employed guard
before the duplicate-join guard, both conflicts), and being a failure it
changes nothing. -/
theorem C3_failed_markJoined_changes_nothing
    (db : DB) (iid jrid incid jrid2 incid2 : UUID) (body : InterviewStatusUpdate)
    (interview : Interview) (job : Job) (candidate : Candidate)
    (d : Date) (sal recv : Int) :
    (∀ e, (updateInterviewStatusTx db iid body jrid incid).1 = Except.error e →
      (updateInterviewStatusTx db iid body jrid incid).2 = db) ∧
    (db.findInterview iid = some interview → interview.is_active = true →
     db.findJob interview.job_id = some job → job.is_active = true →
     db.findCandidate interview.candidate_id = some candidate →
     candidate.is_active = true →
     candidate.employment_status ≠ some EmploymentStatus.EMPLOYED →
     0 < job.num_vacancies →
     body.status = InterviewStatus.JOINED →
     body.doj = some d → body.salary = some sal → 0 < sal →
     body.placement_total_receivable = some recv → 0 < recv →
     db.activeJoinedCount job.id interview.candidate_id = 0 →
     ∀ db1 r, updateInterviewStatus db iid body jrid incid = Except.ok (db1, r) →
       ∃ e, updateInterviewStatus db1 iid body jrid2 incid2 = Except.error e ∧
         e.kind = FailureKind.conflictK ∧
         updateInterviewStatusTx db1 iid body jrid2 incid2 = (Except.error e, db1)) := by
  constructor
  · intro e he
    unfold updateInterviewStatusTx at he ⊢
    cases hr : updateInterviewStatus db iid body jrid incid with
    | ok v =>
      obtain ⟨db2, r2⟩ := v
      rw [hr] at he
      simp at he
    | error e2 => rfl
  · intro hI hIa hJ hJa hC hCa hemp hvpos hs hdoj hsal hsalpos hrec hrecpos hnj
    intro db1 r hok
    have hsv : body.schemaValid = true := by
      unfold InterviewStatusUpdate.schemaValid
      rw [hsal, hrec]
      simp [hsalpos, hrecpos]
    have hI' : db.interviews.find? (fun i => i.id == iid) = some interview := hI
    have hJ' : db.jobs.find? (fun j => j.id == interview.job_id) = some job := hJ
    have hC' : db.candidates.find? (fun c => c.id == interview.candidate_id) = some candidate :=
      hC
    have hIid : interview.id = iid := by
      have := List.find?_some hI'
      simpa using this
    have hJobId : job.id = interview.job_id := by
      have := List.find?_some hJ'
      simpa using this
    have hCandId : candidate.id = interview.candidate_id := by
      have := List.find?_some hC'
      simpa using this
    subst hIid
    have hvne : ¬ job.num_vacancies ≤ 0 := not_le.mpr hvpos
    unfold updateInterviewStatus at hok
    simp only [hsv, hI, hIa, hJ, hJa, hC, hCa, hs, hdoj, hsal, hrec, hnj,
      if_neg hemp, if_neg hvne, lt_self_iff_false, if_false, ite_true, ite_false,
      Bool.true_eq_false, reduceCtorEq, reduceIte] at hok
    rw [Except.ok.injEq, Prod.mk.injEq] at hok
    obtain ⟨hdb, hr2⟩ := hok
    have hI2 : db1.findInterview interview.id =
        some { interview with status := InterviewStatus.JOINED } := by
      rw [← hdb]
      show DB.findInterview _ interview.id = _
      unfold DB.findInterview
      exact find?_updateWhere (fun i => i.id == interview.id)
        (fun i => { i with status := InterviewStatus.JOINED }) db.interviews interview hI'
        (by simp)
    have hJ2 : ∃ job2, db1.findJob interview.job_id = some job2 ∧ job2.is_active = true := by
      rw [← hdb]
      show ∃ job2, DB.findJob _ interview.job_id = some job2 ∧ job2.is_active = true
      unfold DB.findJob
      simp only [← hJobId]
      refine ⟨_, find?_updateWhere (fun j => j.id == job.id) _ db.jobs job ?_ ?_, ?_⟩
      · rw [← hJobId] at hJ'
        exact hJ'
      · simp
      · simpa using hJa
    have hC2 : db1.findCandidate interview.candidate_id =
        some { candidate with employment_status := some EmploymentStatus.EMPLOYED } := by
      rw [← hdb]
      show DB.findCandidate _ interview.candidate_id = _
      unfold DB.findCandidate
      simp only [← hCandId]
      exact find?_updateWhere (fun c => c.id == candidate.id)
        (fun c => { c with employment_status := some EmploymentStatus.EMPLOYED })
        db.candidates candidate (by rw [← hCandId] at hC'; exact hC') (by simp)
    obtain ⟨job2, hJfind, hJact⟩ := hJ2
    have herr : updateInterviewStatus db1 interview.id body jrid2 incid2 =
        Except.error (Failure.conflict
          "Candidate is already EMPLOYED and cannot be joined to another job") := by
      unfold updateInterviewStatus
      simp [hsv, hI2, hJfind, hJact, hC2, hs, hdoj, hsal, hrec, hIa, hCa]
    refine ⟨_, herr, rfl, ?_⟩
    unfold updateInterviewStatusTx
    rw [herr]

/-- Witness for C3: a failing call (job missing) leaves the store untouched,
and the exact repeat of a successful markJoined fails with a conflict and
changes nothing. -/
theorem C3_witness :
    (updateInterviewStatusTx c2db 1 w1body 50 60).2 = c2db ∧
    ∃ e, updateInterviewStatus w3res.1 1 w1body 51 61 = Except.error e ∧
      e.kind = FailureKind.conflictK ∧
      updateInterviewStatusTx w3res.1 1 w1body 51 61 = (Except.error e, w3res.1) :=
  ⟨(C3_failed_markJoined_changes_nothing c2db 1 50 60 51 61 w1body c2interview w1job
      w1cand 10 1000 500).1 (Failure.notFound "Job not found") rfl,
   (C3_failed_markJoined_changes_nothing w1db 1 50 60 51 61 w1body w1iv w1job
      w1cand 10 1000 500).2 rfl rfl rfl rfl rfl rfl (by decide) (by decide) rfl rfl rfl
      (by decide) rfl (by decide) rfl w3res.1 w3res.2 rfl⟩

/-- C4: the joining-record table declares no store-level unique index at all,
and in particular none keyed by (job_id, candidate_id) filtered to active
rows; the in-code existence check in markJoined is the only duplicate-join
guard, contradicting the claim (and the spec's requirement) that the unique
index is declared as the enforcement backstop. -/
theorem C4_no_unique_pair_index_declared :
    (joinedCandidatesTableIndexes.filter fun ix =>
      ix.unique && (ix.columns == ["job_id", "candidate_id"])) = [] ∧
    joinedCandidatesTableIndexes.map (fun ix => ix.unique) = [false, false] ∧
    joinedCandidatesTableIndexes.map (fun ix => ix.columns) =
      [["job_id"], ["candidate_id"]] := by
  refine ⟨rfl, rfl, rfl⟩

/-- C5: when a markJoined call passes the preconditions, exactly one active
placement-income receivable is created for the interview — with
total_receivable = the payload value, total_received = 0,
balance = total_receivable (so total_received + balance = total_receivable at
creation), and due_date = the payload due-date or, when absent, the
date-of-joining — if none existed; if an active receivable already exists for
the interview, its id is reused in the response and the receivable table is
left untouched (no second receivable is created). -/
theorem C5_receivable_created_or_reused
    (db : DB) (iid jrid incid : UUID) (body : InterviewStatusUpdate)
    (interview : Interview) (job : Job) (candidate : Candidate)
    (d : Date) (sal recv : Int)
    (hI : db.findInterview iid = some interview) (hIa : interview.is_active = true)
    (hJ : db.findJob interview.job_id = some job) (hJa : job.is_active = true)
    (hC : db.findCandidate interview.candidate_id = some candidate)
    (hCa : candidate.is_active = true)
    (hemp : candidate.employment_status ≠ some EmploymentStatus.EMPLOYED)
    (hvpos : 0 < job.num_vacancies)
    (hs : body.status = InterviewStatus.JOINED)
    (hdoj : body.doj = some d)
    (hsal : body.salary = some sal) (hsalpos : 0 < sal)
    (hrec : body.placement_total_receivable = some recv) (hrecpos : 0 < recv)
    (hnj : db.activeJoinedCount job.id interview.candidate_id = 0) :
    (db.findActiveIncome interview.id = none →
      ∃ db' resp, updateInterviewStatus db iid body jrid incid = Except.ok (db', resp) ∧
        resp.placement_income_id = some incid ∧
        db'.placement_incomes = db.placement_incomes ++
          [{ id := incid
             interview_id := interview.id
             candidate_id := interview.candidate_id
             job_id := interview.job_id
             total_receivable := recv
             total_received := 0
             balance := recv
             due_date := body.placement_due_date.getD d
             remarks := body.placement_remarks
             is_active := true }] ∧
        db'.activeIncomeCount interview.id = 1) ∧
    (∀ existing, db.findActiveIncome interview.id = some existing →
      ∃ db' resp, updateInterviewStatus db iid body jrid incid = Except.ok (db', resp) ∧
        resp.placement_income_id = some existing.id ∧
        db'.placement_incomes = db.placement_incomes) := by
  have hsv : body.schemaValid = true := by
    unfold InterviewStatusUpdate.schemaValid
    rw [hsal, hrec]
    simp [hsalpos, hrecpos]
  have hI' : db.interviews.find? (fun i => i.id == iid) = some interview := hI
  have hIid : interview.id = iid := by
    have := List.find?_some hI'
    simpa using this
  subst hIid
  have hvne : ¬ job.num_vacancies ≤ 0 := not_le.mpr hvpos
  constructor
  · intro hni
    unfold updateInterviewStatus
    simp only [hsv, hI, hIa, hJ, hJa, hC, hCa, hs, hdoj, hsal, hrec, hnj, hni,
      if_neg hemp, if_neg hvne, lt_self_iff_false, if_false, ite_true, ite_false,
      Bool.true_eq_false, reduceCtorEq, reduceIte]
    refine ⟨_, _, rfl, rfl, rfl, ?_⟩
    show DB.activeIncomeCount _ interview.id = 1
    unfold DB.activeIncomeCount
    refine filter_length_append_one _ _ _ ?_ (by simp)
    have hfil : db.placement_incomes.filter
        (fun p => p.is_active && (p.interview_id == interview.id)) = [] :=
      List.filter_eq_nil_iff.mpr (by
        intro x hx
        have := List.find?_eq_none.mp hni x hx
        simpa using this)
    simp [hfil]
  · intro existing hex
    unfold updateInterviewStatus
    simp only [hsv, hI, hIa, hJ, hJa, hC, hCa, hs, hdoj, hsal, hrec, hnj, hex,
      if_neg hemp, if_neg hvne, lt_self_iff_false, if_false, ite_true, ite_false,
      Bool.true_eq_false, reduceCtorEq, reduceIte]
    exact ⟨_, _, rfl, rfl, rfl⟩

/-- Witness for C5: on the fresh store a single receivable is created with
balance = total_receivable, and on the store with an existing receivable its
id (77) is reused and the receivable table is unchanged. -/
theorem C5_witness :
    (∃ db' resp, updateInterviewStatus w1db 1 w1body 50 60 = Except.ok (db', resp) ∧
      resp.placement_income_id = some 60 ∧
      db'.placement_incomes = w1db.placement_incomes ++
        [{ id := 60
           interview_id := 1
           candidate_id := 4
           job_id := 2
           total_receivable := 500
           total_received := 0
           balance := 500
           due_date := 10
           remarks := none
           is_active := true }] ∧
      db'.activeIncomeCount 1 = 1) ∧
    (∃ db' resp, updateInterviewStatus w5db 1 w1body 50 60 = Except.ok (db', resp) ∧
      resp.placement_income_id = some 77 ∧
      db'.placement_incomes = w5db.placement_incomes) :=
  ⟨(C5_receivable_created_or_reused w1db 1 50 60 w1body w1iv w1job w1cand 10 1000 500
      rfl rfl rfl rfl rfl rfl (by decide) (by decide) rfl rfl rfl (by decide) rfl
      (by decide) rfl).1 rfl,
   (C5_receivable_created_or_reused w5db 1 50 60 w1body w1iv w1job w1cand 10 1000 500
      rfl rfl rfl rfl rfl rfl (by decide) (by decide) rfl rfl rfl (by decide) rfl
      (by decide) rfl).2 w5income rfl⟩

/-- C6: ledger queries return the union of the three payment-source
projections (duplicates preserved) sorted by payment_date descending with
created_at descending as tie-break, pages are 1-indexed with the offset equal
to (page-1)*limit and at most limit items per page, and total counts all rows
matching the same filters independently of page and limit (so a full first
page is a reordering of the whole filtered union); in particular, on the
concrete store with one company payment (500, D1), one candidate payment
(300, D2 > D1) and one placement installment (700, D3 > D2), the unfiltered
query returns exactly the three items in the order
[installment, candidate payment, company payment] with total = 3. -/
theorem C6_ledger_merge_sort_paginate
    (db : DB) (f : LedgerFilters) (page limit : Nat)
    (hp : 1 ≤ page) (hl1 : 1 ≤ limit) (hl2 : limit ≤ 100) :
    (listPaymentLedger db f page limit).items =
      ((List.insertionSort ledgerBefore ((ledgerRows db).filter f.matchesRow)).drop
        ((page - 1) * limit)).take limit ∧
    List.Sorted ledgerBefore (listPaymentLedger db f page limit).items ∧
    (listPaymentLedger db f page limit).items.length ≤ limit ∧
    (listPaymentLedger db f page limit).total =
      ((ledgerRows db).filter f.matchesRow).length ∧
    (∀ page2 limit2, (listPaymentLedger db f page2 limit2).total =
      (listPaymentLedger db f page limit).total) ∧
    (page = 1 → ((ledgerRows db).filter f.matchesRow).length ≤ limit →
      List.Perm (listPaymentLedger db f page limit).items
        ((ledgerRows db).filter f.matchesRow)) ∧
    ((listPaymentLedger db6 ({} : LedgerFilters) 1 20).items.map
        (fun r2 => (r2.source, r2.amount)) =
      [("PLACEMENT_INCOME", 700), ("CANDIDATE_PAYMENT", 300), ("COMPANY_PAYMENT", 500)] ∧
     (listPaymentLedger db6 ({} : LedgerFilters) 1 20).total = 3) := by
  refine ⟨rfl, ?_, ?_, rfl, fun page2 limit2 => rfl, ?_, by decide, by decide⟩
  · have hsorted : List.Sorted ledgerBefore
        (List.insertionSort ledgerBefore ((ledgerRows db).filter f.matchesRow)) :=
      List.sorted_insertionSort ledgerBefore _
    exact hsorted.sublist ((List.take_sublist _ _).trans (List.drop_sublist _ _))
  · exact List.length_take_le _ _
  · intro hpage hlen
    subst hpage
    show List.Perm (((List.insertionSort ledgerBefore
        ((ledgerRows db).filter f.matchesRow)).drop ((1 - 1) * limit)).take limit)
      ((ledgerRows db).filter f.matchesRow)
    have hdz : (1 - 1) * limit = 0 := by simp
    rw [hdz, List.drop_zero, List.take_of_length_le]
    · exact List.perm_insertionSort _ _
    · rw [(List.perm_insertionSort ledgerBefore _).length_eq]
      exact hlen

/-- Witness for C6 at the concrete three-payment store. -/
theorem C6_witness :
    List.Sorted ledgerBefore (listPaymentLedger db6 ({} : LedgerFilters) 1 20).items ∧
    (listPaymentLedger db6 ({} : LedgerFilters) 1 20).total =
      ((ledgerRows db6).filter (LedgerFilters.matchesRow {})).length :=
  ⟨(C6_ledger_merge_sort_paginate db6 {} 1 20 (by decide) (by decide) (by decide)).2.1,
   (C6_ledger_merge_sort_paginate db6 {} 1 20 (by decide) (by decide)
      (by decide)).2.2.2.1⟩

/-- C7 counterexample: with include_inactive unset, a company payment whose
stored active flag is false is still returned by the ledger, and its reported
is_active is true, not the stored flag: the company projection hardcodes
is_active to the literal True, so neither the exclusion nor the claimed
stored-flag reporting holds for company payments. -/
theorem C7_counterexample :
    ({} : LedgerFilters).include_inactive = false ∧
    (c7db.company_payments.map fun p => p.is_active) = [false] ∧
    ((listPaymentLedger c7db ({} : LedgerFilters) 1 20).items.map
      fun r2 => (r2.id, r2.is_active)) = [(10, true)] := by
  refine ⟨rfl, rfl, by decide⟩

/-- C7 amended: when include_inactive is unset, every returned ledger row has
its projected is_active true; for candidate payments and placement
installments the projected flag is the stored record's flag (so stored-
inactive rows of those two sources are excluded), but every company-payment
row is projected with is_active = true regardless of the stored flag, so
company payments are never excluded by the active-flag filter. -/
theorem C7_active_flag_filtering_amended
    (db : DB) (f : LedgerFilters) (page limit : Nat)
    (h : f.include_inactive = false) :
    (∀ row ∈ (listPaymentLedger db f page limit).items, row.is_active = true) ∧
    (∀ row ∈ companyProjection db, row.is_active = true) ∧
    (∀ row ∈ candidateProjection db, ∃ p, p ∈ db.candidate_payments ∧
      row.id = p.id ∧ row.is_active = p.is_active) ∧
    (∀ row ∈ placementProjection db, ∃ p, p ∈ db.placement_income_payments ∧
      row.id = p.id ∧ row.is_active = p.is_active) := by
  refine ⟨?_, ?_, ?_, ?_⟩
  · intro row hrow
    have h2 : row ∈ List.insertionSort ledgerBefore
        ((ledgerRows db).filter f.matchesRow) :=
      ((List.take_sublist _ _).trans (List.drop_sublist _ _)).mem hrow
    have h3 : row ∈ (ledgerRows db).filter f.matchesRow :=
      (List.mem_insertionSort ledgerBefore).mp h2
    have h4 := List.of_mem_filter h3
    unfold LedgerFilters.matchesRow at h4
    rw [h] at h4
    simp only [Bool.and_eq_true, Bool.false_or] at h4
    exact h4.2
  · intro row hrow
    unfold companyProjection at hrow
    obtain ⟨p, hp, hmap⟩ := List.mem_filterMap.mp hrow
    obtain ⟨comp, hcomp, heq⟩ := Option.map_eq_some'.mp hmap
    rw [← heq]
  · intro row hrow
    unfold candidateProjection at hrow
    obtain ⟨p, hp, hmap⟩ := List.mem_filterMap.mp hrow
    obtain ⟨cand, hcand, heq⟩ := Option.map_eq_some'.mp hmap
    exact ⟨p, hp, by rw [← heq], by rw [← heq]⟩
  · intro row hrow
    unfold placementProjection at hrow
    obtain ⟨p, hp, hmap⟩ := List.mem_filterMap.mp hrow
    obtain ⟨pinc, hpinc, hmap2⟩ := Option.bind_eq_some.mp hmap
    obtain ⟨job, hjob, hmap3⟩ := Option.bind_eq_some.mp hmap2
    obtain ⟨comp, hcomp, hmap4⟩ := Option.bind_eq_some.mp hmap3
    obtain ⟨cand, hcand, heq⟩ := Option.map_eq_some'.mp hmap4
    exact ⟨p, hp, by rw [← heq], by rw [← heq]⟩

/-- Witness for C7's amended theorem at a concrete store and row. -/
theorem C7_amended_witness : w7row.is_active = true :=
  (C7_active_flag_filtering_amended db6 {} 1 20 rfl).1 w7row (by decide)

/-- C8: on the JOC track, a candidate update carrying a fee-structure payload
when a fee structure already exists updates only total_fee and due_date of
that row in place — its id, candidate_id, balance and active flag are
untouched (balance is not recomputed against posted payments) and no second
fee structure is created (the fee table keeps its length) — and a payment
payload on this path appends exactly one new payment row and never changes
the fee balance. -/
theorem C8_joc_fee_update_in_place
    (db : DB) (cid newFeeId newPayId : UUID) (body : CandidateUpdate) (now : Date)
    (candidate : Candidate) (fee : JocStructureFee) (fp : FeeStructurePayload)
    (hC : db.findCandidate cid = some candidate)
    (hCa : candidate.is_active = true)
    (heff : effectiveStatus candidate body = CandidateStatus.JOC)
    (hfee : body.fee_structure = some fp)
    (hrow : db.findFeeRow candidate.id = some fee) :
    ∃ db', updateCandidate db cid body newFeeId newPayId now = Except.ok db' ∧
      db'.joc_structure_fees = updateWhere (fun r => r.candidate_id == candidate.id)
        (fun r => { r with total_fee := fp.total_fee, due_date := fp.due_date })
        db.joc_structure_fees ∧
      db'.joc_structure_fees.length = db.joc_structure_fees.length ∧
      db'.findFeeRow candidate.id =
        some { fee with total_fee := fp.total_fee, due_date := fp.due_date } ∧
      (body.initial_payment = none → db'.candidate_payments = db.candidate_payments) ∧
      (∀ pp, body.initial_payment = some pp →
        db'.candidate_payments = db.candidate_payments ++
          [{ id := newPayId, candidate_id := candidate.id, amount := pp.amount
             payment_date := pp.payment_date, created_at := now
             remarks := pp.remarks, is_active := true }]) := by
  have hrow' : db.joc_structure_fees.find? (fun r => r.candidate_id == candidate.id) =
      some fee := hrow
  cases hpay : body.initial_payment with
  | none =>
    unfold updateCandidate
    simp only [hC, hCa, heff, hfee, hrow, hpay, reduceCtorEq, or_self, false_and,
      ne_eq, if_false, ite_true, ite_false, Bool.true_eq_false, and_false]
    norm_num
    constructor
    · simp [updateWhere]
    · show DB.findFeeRow _ candidate.id = _
      unfold DB.findFeeRow
      exact find?_updateWhere (fun r => r.candidate_id == candidate.id)
        (fun r => { r with total_fee := fp.total_fee, due_date := fp.due_date })
        db.joc_structure_fees fee hrow' (by simpa using List.find?_some hrow')
  | some pp =>
    unfold updateCandidate
    simp only [hC, hCa, heff, hfee, hrow, hpay, reduceCtorEq, or_self, false_and,
      ne_eq, if_false, ite_true, ite_false, Bool.true_eq_false, and_false]
    norm_num
    constructor
    · simp [updateWhere]
    · show DB.findFeeRow _ candidate.id = _
      unfold DB.findFeeRow
      exact find?_updateWhere (fun r => r.candidate_id == candidate.id)
        (fun r => { r with total_fee := fp.total_fee, due_date := fp.due_date })
        db.joc_structure_fees fee hrow' (by simpa using List.find?_some hrow')

/-- Witness for C8: the in-place fee update on a concrete store leaves the
balance at 400 while total_fee becomes 1200, keeps a single fee row and
appends the payment row. -/
theorem C8_witness :
    ∃ db', updateCandidate w8db 6 w8body 70 71 18 = Except.ok db' ∧
      db'.joc_structure_fees = updateWhere (fun r => r.candidate_id == w8cand.id)
        (fun r => { r with total_fee := (1200 : Int), due_date := some (25 : Date) })
        w8db.joc_structure_fees ∧
      db'.joc_structure_fees.length = w8db.joc_structure_fees.length ∧
      db'.findFeeRow 6 = some { w8fee with total_fee := 1200, due_date := some 25 } ∧
      (w8body.initial_payment = none → db'.candidate_payments = w8db.candidate_payments) ∧
      (∀ pp, w8body.initial_payment = some pp →
        db'.candidate_payments = w8db.candidate_payments ++
          [{ id := 71, candidate_id := 6, amount := pp.amount
             payment_date := pp.payment_date, created_at := 18
             remarks := pp.remarks, is_active := true }]) :=
  C8_joc_fee_update_in_place w8db 6 70 71 w8body 18 w8cand w8fee
    { total_fee := 1200, due_date := some 25 } rfl rfl rfl rfl rfl

/-- C9: a JOC candidate creation without a fee-structure payload is rejected
with a validation failure and persists nothing; a REGISTERED or JOC creation
without an initial-payment payload is rejected with a validation failure and
persists nothing; and a successful JOC creation stores the candidate together
with exactly one fee-structure row whose balance equals its total_fee. -/
theorem C9_candidate_creation_rules
    (db : DB) (body : CandidateCreate) (nc nf np : UUID) (now : Date) :
    (body.status = CandidateStatus.JOC → body.fee_structure = none →
      createCandidateTx db body nc nf np now =
        (Except.error (Failure.validation "fee_structure is required"), db)) ∧
    ((body.status = CandidateStatus.REGISTERED ∨ body.status = CandidateStatus.JOC) →
      body.initial_payment = none →
      ∃ s, createCandidateTx db body nc nf np now =
        (Except.error (Failure.validation s), db)) ∧
    (body.status = CandidateStatus.JOC →
      ∀ db', createCandidate db body nc nf np now = Except.ok db' →
        ∃ fp, body.fee_structure = some fp ∧
          db'.joc_structure_fees = db.joc_structure_fees ++
            [{ id := nf, candidate_id := nc, total_fee := fp.total_fee
               balance := fp.total_fee, due_date := fp.due_date, is_active := true }]) := by
  refine ⟨?_, ?_, ?_⟩
  · intro h1 h2
    unfold createCandidateTx createCandidate
    simp [h1, h2]
  · intro h1 h2
    rcases h1 with h1 | h1
    · refine ⟨"initial_payment is required", ?_⟩
      unfold createCandidateTx createCandidate
      simp [h1, h2]
    · cases hfee : body.fee_structure with
      | none =>
        refine ⟨"fee_structure is required", ?_⟩
        unfold createCandidateTx createCandidate
        simp [h1, hfee]
      | some fp =>
        refine ⟨"initial_payment is required", ?_⟩
        unfold createCandidateTx createCandidate
        simp [h1, h2, hfee]
  · intro h1 db' hok
    cases hfee : body.fee_structure with
    | none =>
      unfold createCandidate at hok
      simp [h1, hfee] at hok
    | some fp =>
      cases hpay : body.initial_payment with
      | none =>
        unfold createCandidate at hok
        simp [h1, hfee, hpay] at hok
      | some pp =>
        unfold createCandidate at hok
        simp [h1, hfee, hpay] at hok
        refine ⟨fp, rfl, ?_⟩
        rw [← hok]

/-- Witness for C9: all three creation rules exercised on concrete requests
(JOC without fee, REGISTERED without payment, successful JOC creation). -/
theorem C9_witness :
    createCandidateTx ({} : DB) { status := CandidateStatus.JOC } 1 2 3 0 =
      (Except.error (Failure.validation "fee_structure is required"), ({} : DB)) ∧
    (∃ s, createCandidateTx ({} : DB) { status := CandidateStatus.REGISTERED } 1 2 3 0 =
      (Except.error (Failure.validation s), ({} : DB))) ∧
    (∃ fp, w9body.fee_structure = some fp ∧
      w9dbres.joc_structure_fees = ({} : DB).joc_structure_fees ++
        [{ id := 2, candidate_id := 1, total_fee := fp.total_fee
           balance := fp.total_fee, due_date := fp.due_date, is_active := true }]) :=
  ⟨(C9_candidate_creation_rules ({} : DB) { status := CandidateStatus.JOC }
      1 2 3 0).1 rfl rfl,
   (C9_candidate_creation_rules ({} : DB) { status := CandidateStatus.REGISTERED }
      1 2 3 0).2.1 (Or.inl rfl) rfl,
   (C9_candidate_creation_rules ({} : DB) w9body 1 2 3 0).2.2 rfl w9dbres rfl⟩

/-- Reported employment status of a serialized candidate: the stored value
with null defaulted to UNEMPLOYED. -/
theorem candidateToRead_employment (c : Candidate) :
    (candidateToRead c).employment_status =
      some (c.employment_status.getD EmploymentStatus.UNEMPLOYED) := by
  unfold candidateToRead
  cases h : c.employment_status <;> simp [h]

/-- Serialization preserves the candidate id. -/
theorem candidateToRead_id (c : Candidate) : (candidateToRead c).id = c.id := by
  unfold candidateToRead
  cases h : c.employment_status <;> simp [h]

/-- C10: every candidate returned by the list or single-candidate read
corresponds to a stored candidate and reports
employment_status = stored value with null defaulted to UNEMPLOYED, so the
public interface never exposes a candidate without an employment status. -/
theorem C10_employment_status_defaulted
    (db : DB) (page limit : Nat) (act : Option Bool) :
    (∀ item ∈ (listCandidates db page limit act).items,
      ∃ c, c ∈ db.candidates ∧ item.id = c.id ∧
        item.employment_status =
          some (c.employment_status.getD EmploymentStatus.UNEMPLOYED)) ∧
    (∀ cid r2, getCandidate db cid = Except.ok r2 →
      ∃ c, c ∈ db.candidates ∧ c.id = cid ∧
        r2.employment_status =
          some (c.employment_status.getD EmploymentStatus.UNEMPLOYED)) := by
  constructor
  · intro item hitem
    obtain ⟨c, hcmem, hcread⟩ := List.mem_map.mp hitem
    have h3 := (List.mem_insertionSort candidateCreatedDesc).mp
      (((List.take_sublist _ _).trans (List.drop_sublist _ _)).mem hcmem)
    have h4 : c ∈ db.candidates := List.mem_of_mem_filter h3
    exact ⟨c, h4, by rw [← hcread, candidateToRead_id],
      by rw [← hcread, candidateToRead_employment]⟩
  · intro cid r2 hok
    unfold getCandidate at hok
    cases hC : db.findCandidate cid with
    | none => rw [hC] at hok; exact absurd hok (by simp)
    | some c =>
      rw [hC] at hok
      dsimp only at hok
      by_cases hCa : c.is_active = false
      · rw [if_pos hCa] at hok
        exact absurd hok (by simp)
      · rw [if_neg hCa] at hok
        have hr2 : candidateToRead c = r2 := by
          simpa using hok
        have hmem : c ∈ db.candidates :=
          List.mem_of_find?_eq_some hC
        have hid : c.id = cid := by
          have := List.find?_some (hC : db.candidates.find?
            (fun c2 => c2.id == cid) = some c)
          simpa using this
        exact ⟨c, hmem, hid, by rw [← hr2, candidateToRead_employment]⟩

/-- Witness for C10: reading the null-employment candidate reports
UNEMPLOYED. -/
theorem C10_witness :
    ∃ c, c ∈ w10db.candidates ∧ c.id = 5 ∧
      ({ id := 5, status := CandidateStatus.FREE
         employment_status := some EmploymentStatus.UNEMPLOYED
         is_active := true } : CandidateRead).employment_status =
        some (c.employment_status.getD EmploymentStatus.UNEMPLOYED) :=
  (C10_employment_status_defaulted w10db 1 20 (some true)).2 5
    { id := 5, status := CandidateStatus.FREE
      employment_status := some EmploymentStatus.UNEMPLOYED
      is_active := true } rfl

end Caps
